import Mathlib

/-!
Shallow embedding of the OAuth2 token lifecycle manager of mal-api-rs
(src/auth.rs).

Modelling conventions:
- Mutex-guarded fields of `struct Auth` become plain structure fields,
  with explicit state passing (each mutating method returns the new state).
- The system clock (`Utc::now().timestamp() as u64`) becomes an explicit
  `now : Nat` parameter in UTC seconds.
- A network exchange with the token endpoint becomes an `Except`-valued
  parameter describing the response the endpoint would give, and each
  embedded operation reports how many such exchanges it performed.
- A panic in the source (an `unwrap()` of `None`) is modelled as a `none`
  result: the operation does not return normally.
-/

/-- Embeds the token response the oauth2 crate hands back to auth.rs:
`token.access_token()` (always present), `token.refresh_token()`
(`Option`), and `token.expires_in()` (`Option`, here in whole seconds). -/
structure TokenResponse where
  access_token : String
  refresh_token : Option String
  expires_in : Option Nat
  deriving DecidableEq

/-- Embeds `enum TokenError` (auth.rs:508-525). Payloads that are foreign
error objects are carried as their rendered message strings, matching how
auth.rs itself converts them (`e.to_string()`). -/
inductive TokenError where
  | Callback (msg : String)
  | RefreshExpired
  | OAuth2 (msg : String)
  | Refresh
  | Access
  | Parse (msg : String)
  | StateMismatch
  deriving DecidableEq

/-- Embeds `struct Auth` (auth.rs:116-128): client credentials fixed at
construction, mutex-guarded token fields, expiries in UTC seconds, and the
scope list. The boxed callback is not state that any claim reads; the
callback outcome is passed explicitly to `regenerate`. -/
structure Auth where
  client_id : String
  client_secret : String
  redirect_url : String
  access_token : String
  refresh_token : String
  expires_at : Nat
  refresh_expires_at : Nat
  scopes : List String
  deriving DecidableEq

/-- Embeds `struct AuthTokens` (auth.rs:62-68), the persisted snapshot. -/
structure AuthTokens where
  access_token : String
  refresh_token : String
  expires_at : Nat
  refresh_expires_at : Nat
  deriving DecidableEq

instance {ε α : Type} [DecidableEq ε] [DecidableEq α] : DecidableEq (Except ε α)
  | .ok a, .ok b =>
    if h : a = b then isTrue (by rw [h]) else isFalse (by intro hc; cases hc; exact h rfl)
  | .ok _, .error _ => isFalse (by intro h; cases h)
  | .error _, .ok _ => isFalse (by intro h; cases h)
  | .error e, .error f =>
    if h : e = f then isTrue (by rw [h]) else isFalse (by intro hc; cases hc; exact h rfl)

/-- Result record for the embedded fallible operations: the state after
the call, the returned value (`none` models a panic, `some` a normal
return of `Result<(), TokenError>`), and how many token-endpoint
exchanges the call performed. -/
structure Outcome where
  state : Auth
  result : Option (Except TokenError Unit)
  exchanges : Nat
  deriving DecidableEq

/-- Embeds `Auth::new` (auth.rs:159-186): empty sentinel tokens, zero
expiries, no scopes. -/
def Auth.new (client_id client_secret redirect_url : String) : Auth :=
  { client_id := client_id
    client_secret := client_secret
    redirect_url := redirect_url
    access_token := ""
    refresh_token := ""
    expires_at := 0
    refresh_expires_at := 0
    scopes := [] }

/-- Embeds `Auth::set_access_token_unchecked` (auth.rs:240-243). -/
def Auth.set_access_token_unchecked (a : Auth) (token : String) : Auth :=
  { a with access_token := token }

/-- Embeds `Auth::set_refresh_token_unchecked` (auth.rs:230-233). -/
def Auth.set_refresh_token_unchecked (a : Auth) (token : String) : Auth :=
  { a with refresh_token := token }

/-- Embeds `Auth::set_expires_at_unchecked` (auth.rs:251-254). -/
def Auth.set_expires_at_unchecked (a : Auth) (expiry : Nat) : Auth :=
  { a with expires_at := expiry }

/-- Embeds `Auth::set_refresh_expires_at_unchecked` (auth.rs:284-287). -/
def Auth.set_refresh_expires_at_unchecked (a : Auth) (expiry : Nat) : Auth :=
  { a with refresh_expires_at := expiry }

/-- Embeds the getter method `Auth::refresh_expires_at` (auth.rs:395-398).
The method is documented as "Time in utc seconds when refresh token
expires." but its body reads the `expires_at` mutex, not the
`refresh_expires_at` mutex; the embedding reproduces that body verbatim.
Named with a `_method` suffix because the structure projection
`Auth.refresh_expires_at` already takes the field name. -/
def Auth.refresh_expires_at_method (a : Auth) : Nat :=
  a.expires_at

/-- Embeds `Auth::to_tokens` (auth.rs:191-203): snapshots the four token
fields through the getter methods (the three correct getters are the
structure projections; the fourth is `refresh_expires_at_method`). -/
def Auth.to_tokens (a : Auth) : AuthTokens :=
  { access_token := a.access_token
    refresh_token := a.refresh_token
    expires_at := a.expires_at
    refresh_expires_at := a.refresh_expires_at_method }

/-- Embeds `AuthTokens::to_auth` (auth.rs:82-96): builds a fresh `Auth`
and restores the four snapshot fields through the unchecked setters. -/
def AuthTokens.to_auth (t : AuthTokens) (client_id client_secret redirect_url : String) :
    Auth :=
  let a := Auth.new client_id client_secret redirect_url
  let a := a.set_access_token_unchecked t.access_token
  let a := a.set_refresh_token_unchecked t.refresh_token
  let a := a.set_expires_at_unchecked t.expires_at
  a.set_refresh_expires_at_unchecked t.refresh_expires_at

/-- Embeds `AuthTokens::into_auth` (auth.rs:98-113); in Rust it differs
from `to_auth` only by moving instead of cloning, so the embedded body is
the same. -/
def AuthTokens.into_auth (t : AuthTokens) (client_id client_secret redirect_url : String) :
    Auth :=
  t.to_auth client_id client_secret redirect_url

/-- Embeds `Auth::is_access_valid` (auth.rs:341-343): compares the clock
against the stored access expiry. The body inspects no token string. -/
def Auth.is_access_valid (a : Auth) (now : Nat) : Bool :=
  decide (now < a.expires_at)

/-- Embeds `Auth::is_refresh_valid` (auth.rs:354-356): compares the clock
against the stored refresh expiry field (the field, not the buggy getter). -/
def Auth.is_refresh_valid (a : Auth) (now : Nat) : Bool :=
  decide (now < a.refresh_expires_at)

/-- Embeds the constant `Auth::DAYS` (auth.rs:401). -/
def Auth.DAYS : Nat := 31

/-- Embeds `Auth::refresh` (auth.rs:404-428). The exchange with the token
endpoint is performed unconditionally on the stored refresh token (there
is no presence guard in the source), so `exchanges` is always 1; `exch` is
the response of that exchange. On an exchange error the source maps it to
`TokenError::OAuth2` and returns before any mutation. On success the
source unwraps `expires_in` (panic before any mutation when absent), then
writes the access expiry, the refresh expiry (now + DAYS days), the access
token, and finally unwraps the rotated refresh token (panic after the
first three writes when absent). -/
def Auth.refresh (a : Auth) (now : Nat) (exch : Except String TokenResponse) : Outcome :=
  match exch with
  | .error e => ⟨a, some (.error (.OAuth2 e)), 1⟩
  | .ok tok =>
    match tok.expires_in with
    | none => ⟨a, none, 1⟩
    | some ein =>
      let a1 := a.set_expires_at_unchecked (now + ein)
      let a2 := a1.set_refresh_expires_at_unchecked (now + Auth.DAYS * 24 * 60 * 60)
      let a3 := a2.set_access_token_unchecked tok.access_token
      match tok.refresh_token with
      | none => ⟨a3, none, 1⟩
      | some rt => ⟨a3.set_refresh_token_unchecked rt, some (.ok ()), 1⟩

/-- Embeds `Auth::try_refresh` (auth.rs:364-378): snapshots
`is_refresh_valid` then `is_access_valid`, refreshes when the access
snapshot is invalid and the refresh snapshot valid (propagating a refresh
error with `?`, a refresh panic as a panic), then reports `RefreshExpired`
when both snapshots were invalid and `Ok` otherwise. -/
def Auth.try_refresh (a : Auth) (now : Nat) (exch : Except String TokenResponse) : Outcome :=
  let refresh_valid := a.is_refresh_valid now
  let access_valid := a.is_access_valid now
  if !access_valid && refresh_valid then
    let o := a.refresh now exch
    match o.result with
    | some (.ok ()) =>
      if !access_valid && !refresh_valid then ⟨o.state, some (.error .RefreshExpired), o.exchanges⟩
      else ⟨o.state, some (.ok ()), o.exchanges⟩
    | some (.error e) => ⟨o.state, some (.error e), o.exchanges⟩
    | none => ⟨o.state, none, o.exchanges⟩
  else if !access_valid && !refresh_valid then ⟨a, some (.error .RefreshExpired), 0⟩
  else ⟨a, some (.ok ()), 0⟩

/-- Follows the words of the spec for `try_ensure_valid` (spec section
4.1): if access is valid, no-op success with no exchange; if access
invalid but refresh valid, perform a refresh and return its result; if
neither valid, fail with `RefreshExpired` with no exchange. Written from
the spec, to be compared with `Auth.try_refresh` from the source. -/
def try_ensure_valid_spec (a : Auth) (now : Nat) (exch : Except String TokenResponse) :
    Outcome :=
  if a.is_access_valid now then ⟨a, some (.ok ()), 0⟩
  else if a.is_refresh_valid now then a.refresh now exch
  else ⟨a, some (.error .RefreshExpired), 0⟩

/-- Embeds `oauth2::PkceCodeChallenge` as used by auth.rs: a challenge
string plus the method string sent as `code_challenge_method`. -/
structure PkceCodeChallenge where
  code_challenge : String
  code_challenge_method : String
  deriving DecidableEq

/-- Embeds `oauth2::PkceCodeChallenge::new_random_plain`, the constructor
called by `Auth::regenerate` (auth.rs:443). Per RFC 7636 and the oauth2
crate, the plain method sends the verifier itself as the challenge, with
method string "plain"; the random verifier is the explicit argument. -/
def PkceCodeChallenge.new_random_plain (verifier : String) :
    PkceCodeChallenge × String :=
  (⟨verifier, "plain"⟩, verifier)

/-- Embeds the query parameters of the authorization URL built by
`Auth::regenerate` (auth.rs:447-452) via `oauth2::Client::authorize_url`
with `set_pkce_challenge`: response type, client id, CSRF state, redirect
url, the scopes, and the PKCE challenge pair from `new_random_plain`. -/
def Auth.authorize_url_params (a : Auth) (csrf verifier : String) :
    List (String × String) :=
  let ch := (PkceCodeChallenge.new_random_plain verifier).1
  [("response_type", "code"),
   ("client_id", a.client_id),
   ("state", csrf),
   ("redirect_uri", a.redirect_url),
   ("code_challenge", ch.code_challenge),
   ("code_challenge_method", ch.code_challenge_method)]
  ++ a.scopes.map (fun s => ("scope", s))

/-- Embeds `Auth::regenerate` (auth.rs:442-494). The fresh CSRF state and
PKCE verifier produced by the random generators are explicit arguments;
`cb` is the outcome of the user callback (authorization code and the
state echoed by the client); `exch` is the response the token endpoint
would give to the code exchange. The source returns `Callback` on a
callback error, returns `StateMismatch` when the issued state secret and
the echoed state secret differ as strings (before any exchange), returns
`Access` when the code exchange fails, and otherwise runs the same four
writes and two unwraps as `refresh`. -/
def Auth.regenerate (a : Auth) (now : Nat) (verifier csrf : String)
    (cb : Except String (String × String)) (exch : Except Unit TokenResponse) : Outcome :=
  match cb with
  | .error e => ⟨a, some (.error (.Callback e)), 0⟩
  | .ok (_auth_code, client_state) =>
    if csrf ≠ client_state then ⟨a, some (.error .StateMismatch), 0⟩
    else
      match exch with
      | .error _ => ⟨a, some (.error .Access), 1⟩
      | .ok tok =>
        match tok.expires_in with
        | none => ⟨a, none, 1⟩
        | some ein =>
          let a1 := a.set_expires_at_unchecked (now + ein)
          let a2 := a1.set_refresh_expires_at_unchecked (now + Auth.DAYS * 24 * 60 * 60)
          let a3 := a2.set_access_token_unchecked tok.access_token
          match tok.refresh_token with
          | none => ⟨a3, none, 1⟩
          | some rt => ⟨a3.set_refresh_token_unchecked rt, some (.ok ()), 1⟩

/-!
Interleaving model for two concurrent `try_refresh` calls on one shared
`Auth` (spec section 8, concurrent scenario). Each mutex in the source is
held only for a single field read or write and is never held across the
awaited network exchange, so the scheduler may interleave the two tasks
at those points. A task is split into three atomic phases that follow the
straight-line body of `Auth::try_refresh` (auth.rs:364-378):
  phase 0: snapshot `is_refresh_valid` and `is_access_valid`
           (auth.rs:365-366, two brief mutex reads);
  phase 1: when the snapshots demand it, run the whole of `Auth::refresh`
           (exchange plus its four writes, auth.rs:404-428) as one step;
  phase 2: compute the returned value from the snapshots and the refresh
           result (auth.rs:372-377).
Coarsening several source-level atomic actions into one phase only
removes interleavings, so any behaviour exhibited by a schedule of this
model is a behaviour of the source under some finer schedule.
-/

/-- Per-task state of the interleaving model: the program counter, the two
validity snapshots, the recorded refresh result (`none` while no refresh
ran), and the final returned value (`none` while the task is unfinished). -/
structure TaskState where
  pc : Nat
  access_valid : Bool
  refresh_valid : Bool
  rres : Option (Option (Except TokenError Unit))
  res : Option (Option (Except TokenError Unit))
  deriving DecidableEq

/-- Initial task state: at phase 0 with nothing recorded. -/
def TaskState.init : TaskState :=
  ⟨0, false, false, none, none⟩

/-- One atomic phase of one task against the shared `Auth` and the shared
exchange counter, following `Auth::try_refresh` as described above. -/
def TaskState.step (auth : Auth) (exchanges : Nat) (now : Nat)
    (exch : Except String TokenResponse) (t : TaskState) :
    Auth × Nat × TaskState :=
  match t.pc with
  | 0 =>
    (auth, exchanges,
      { t with
        pc := 1
        refresh_valid := auth.is_refresh_valid now
        access_valid := auth.is_access_valid now })
  | 1 =>
    if !t.access_valid && t.refresh_valid then
      let o := auth.refresh now exch
      (o.state, exchanges + o.exchanges, { t with pc := 2, rres := some o.result })
    else (auth, exchanges, { t with pc := 2 })
  | 2 =>
    let r : Option (Except TokenError Unit) :=
      match t.rres with
      | some none => none
      | some (some (.error e)) => some (.error e)
      | _ =>
        if !t.access_valid && !t.refresh_valid then some (.error .RefreshExpired)
        else some (.ok ())
    (auth, exchanges, { t with pc := 3, res := some r })
  | _ => (auth, exchanges, t)

/-- Shared system state of the interleaving model: the shared `Auth`, the
total count of token-endpoint exchanges, and the two tasks. -/
structure SysState where
  auth : Auth
  exchanges : Nat
  t1 : TaskState
  t2 : TaskState
  deriving DecidableEq

/-- Runs one scheduler choice: `true` steps task 1, `false` steps task 2. -/
def SysState.stepSys (now : Nat) (exch : Except String TokenResponse)
    (s : SysState) (who : Bool) : SysState :=
  if who then
    let (a, e, t) := s.t1.step s.auth s.exchanges now exch
    ⟨a, e, t, s.t2⟩
  else
    let (a, e, t) := s.t2.step s.auth s.exchanges now exch
    ⟨a, e, s.t1, t⟩

/-- Runs a whole schedule, one scheduler choice per list entry. -/
def runSched (now : Nat) (exch : Except String TokenResponse) :
    List Bool → SysState → SysState
  | [], s => s
  | w :: ws, s => runSched now exch ws (SysState.stepSys now exch s w)

/-!
Concrete inputs used by the counterexamples and witnesses below.
-/

/-- Concrete manager state whose access expiry and refresh expiry differ:
access already expired at clock 50, refresh still valid there. -/
def c1Auth : Auth :=
  { client_id := "cid"
    client_secret := "sec"
    redirect_url := "http://localhost/cb"
    access_token := "at"
    refresh_token := "rt"
    expires_at := 0
    refresh_expires_at := 100
    scopes := [] }

/-- Concrete manager state with an absent (empty sentinel) access token
but a future access expiry. -/
def c2Auth : Auth :=
  { client_id := "cid"
    client_secret := "sec"
    redirect_url := "http://localhost/cb"
    access_token := ""
    refresh_token := ""
    expires_at := 100
    refresh_expires_at := 0
    scopes := [] }

/-- Concrete freshly constructed manager: both tokens are the empty
sentinel, both expiries zero. -/
def c3Auth : Auth :=
  Auth.new "cid" "sec" "http://localhost/cb"

/-- Concrete manager state holding a refresh token that the provider is
about to decline to rotate. -/
def c6Auth : Auth :=
  { client_id := "cid"
    client_secret := "sec"
    redirect_url := "http://localhost/cb"
    access_token := "old_access"
    refresh_token := "old_refresh"
    expires_at := 3
    refresh_expires_at := 5
    scopes := [] }

/-- Concrete provider response that omits the rotated refresh token. -/
def c6Resp : TokenResponse :=
  { access_token := "new_access"
    refresh_token := none
    expires_in := some 60 }

/-- Concrete shared manager state for the concurrency scenario: at clock
10 the access token is expired and the refresh token is valid. -/
def c9Auth : Auth :=
  { client_id := "cid"
    client_secret := "sec"
    redirect_url := "http://localhost/cb"
    access_token := "a"
    refresh_token := "r"
    expires_at := 5
    refresh_expires_at := 1000
    scopes := [] }

/-- Concrete successful provider response for the concurrency scenario. -/
def c9Resp : TokenResponse :=
  { access_token := "a2"
    refresh_token := some "r2"
    expires_in := some 3600 }

/-- Initial system state of the concurrency scenario. -/
def c9Init : SysState :=
  ⟨c9Auth, 0, TaskState.init, TaskState.init⟩

/-- Schedule in which both tasks snapshot validity before either
refreshes: task 1 snapshots, task 2 snapshots, task 1 refreshes and
finishes, task 2 refreshes and finishes. -/
def c9Sched : List Bool :=
  [true, false, true, true, false, false]

/-- Final system state of the concurrency scenario under `c9Sched`. -/
def c9Final : SysState :=
  runSched 10 (.ok c9Resp) c9Sched c9Init

/-!
Theorems settling the claims.
-/

/-- Claim C1: the round trip through `to_tokens` and `to_auth` is claimed
to preserve `is_access_valid` and `is_refresh_valid` at every clock
instant. Evaluating the code at a failing input: the getter
`Auth::refresh_expires_at` (auth.rs:397) reads the access expiry mutex,
so the snapshot stores the access expiry in the refresh slot; at clock 50
the original manager still reports a valid refresh token while the
rebuilt manager does not. The access half of the round trip does hold
there. -/
theorem roundtrip_refresh_valid_mismatch :
    c1Auth.is_refresh_valid 50 = true ∧
    (c1Auth.to_tokens.to_auth "cid" "sec" "http://localhost/cb").is_refresh_valid 50 = false ∧
    (c1Auth.to_tokens.to_auth "cid" "sec" "http://localhost/cb").is_access_valid 50 =
      c1Auth.is_access_valid 50 := by
  exact ⟨rfl, rfl, rfl⟩

/-- Claim C2, counterexample: a manager whose access token is the absent
sentinel (empty string) but whose stored access expiry is in the future
still reports a valid access token at clock 0, so `is_access_valid` is
not false when no access token is present. -/
theorem is_access_valid_absent_token_cex :
    c2Auth.access_token = "" ∧ c2Auth.is_access_valid 0 = true := by
  exact ⟨rfl, rfl⟩

/-- Claim C2, amended: `is_access_valid` returns true exactly when the
clock is strictly before the stored access expiry, independent of the
stored access token; overwriting the access token never changes it. -/
theorem is_access_valid_time_only (a : Auth) (now : Nat) (t : String) :
    (a.is_access_valid now = true ↔ now < a.expires_at) ∧
    (a.set_access_token_unchecked t).is_access_valid now = a.is_access_valid now := by
  constructor
  · simp [Auth.is_access_valid]
  · rfl

/-- Claim C3, counterexample: on a freshly constructed manager (refresh
token is the absent sentinel), `refresh` still performs one exchange with
the token endpoint, and a declined exchange surfaces as `OAuth2`, not as
the typed error `Refresh`. -/
theorem refresh_without_token_exchanges_cex :
    c3Auth.refresh_token = "" ∧
    (c3Auth.refresh 0 (.error "invalid_grant")).exchanges = 1 ∧
    (c3Auth.refresh 0 (.error "invalid_grant")).result =
      some (.error (.OAuth2 "invalid_grant")) := by
  exact ⟨rfl, rfl, rfl⟩

/-- Claim C3, amended: a `refresh` call with no stored refresh token still
performs exactly one token-endpoint exchange using the empty sentinel
token; when that exchange fails, the typed error is `OAuth2` with the
exchange message and the whole token state is unchanged. -/
theorem refresh_without_token_amended (a : Auth) (now : Nat) (e : String)
    (h : a.refresh_token = "") :
    a.refresh now (.error e) = ⟨a, some (.error (.OAuth2 e)), 1⟩ := by
  exact rfl

/-- Claim C3, witness for the amended theorem at a concrete input. -/
theorem refresh_without_token_amended_witness :
    c3Auth.refresh 7 (.error "x") = ⟨c3Auth, some (.error (.OAuth2 "x")), 1⟩ :=
  refresh_without_token_amended c3Auth 7 "x" rfl

/-- Claim C4: `try_refresh` agrees everywhere with the spec-side
description of `try_ensure_valid`: valid access is a no-op success with
no exchange; invalid access with valid refresh returns the outcome of one
`refresh` (whose exchange count is 1); neither valid fails with
`RefreshExpired` and no exchange. -/
theorem try_refresh_matches_spec (a : Auth) (now : Nat)
    (exch : Except String TokenResponse) :
    a.try_refresh now exch = try_ensure_valid_spec a now exch := by
  unfold Auth.try_refresh try_ensure_valid_spec
  cases hav : a.is_access_valid now <;> cases hrv : a.is_refresh_valid now <;>
    rcases exch with e | ⟨tat, trt, tein⟩ <;>
      first
        | rfl
        | (rcases tein with _ | ein <;> rcases trt with _ | rt <;>
            simp [hav, hrv, Auth.refresh])

/-- Claim C5: when the state echoed by the client differs in any way from
the CSRF state issued for the flow, `regenerate` fails with
`StateMismatch`, performs no token-endpoint exchange, and leaves the
stored token state unchanged; and the comparison is exact string
equality, so a matching state never produces `StateMismatch`. -/
theorem regenerate_state_mismatch (a : Auth) (now : Nat) (v csrf code cst : String)
    (exch : Except Unit TokenResponse) (h : cst ≠ csrf) :
    a.regenerate now v csrf (.ok (code, cst)) exch =
      ⟨a, some (.error .StateMismatch), 0⟩ ∧
    (a.regenerate now v csrf (.ok (code, csrf)) exch).result ≠
      some (.error .StateMismatch) := by
  constructor
  · have h' : csrf ≠ cst := Ne.symm h
    simp [Auth.regenerate, h']
  · rcases exch with u | ⟨tat, trt, tein⟩
    · simp [Auth.regenerate]
    · rcases tein with _ | ein <;> rcases trt with _ | rt <;> simp [Auth.regenerate]

/-- Claim C5, witness at a concrete input with states differing in one
character. -/
theorem regenerate_state_mismatch_witness :
    c1Auth.regenerate 0 "ver" "state_a" ( .ok ("code", "state_b")) (.error ()) =
      ⟨c1Auth, some (.error .StateMismatch), 0⟩ ∧
    (c1Auth.regenerate 0 "ver" "state_a" (.ok ("code", "state_a")) (.error ())).result ≠
      some (.error .StateMismatch) :=
  regenerate_state_mismatch c1Auth 0 "ver" "state_a" "code" "state_b" (.error ())
    (by decide)

/-- Claim C6, counterexample: a successful exchange whose response omits
the rotated refresh token makes `refresh` panic (it does not return
normally), and before the panic it has already overwritten both the
access expiry and the refresh expiry. -/
theorem refresh_unrotated_panics_cex :
    (c6Auth.refresh 0 (.ok c6Resp)).result = none ∧
    (c6Auth.refresh 0 (.ok c6Resp)).state.refresh_expires_at ≠ c6Auth.refresh_expires_at ∧
    (c6Auth.refresh 0 (.ok c6Resp)).state.expires_at ≠ c6Auth.expires_at := by
  refine ⟨rfl, ?_, ?_⟩ <;> decide

/-- Claim C6, amended: when the provider response omits the rotated
refresh token, `refresh` panics at the final unwrap instead of returning;
at the panic point it has already written the new access expiry, the new
refresh expiry, and the new access token, and only the stored refresh
token keeps its previous value. -/
theorem refresh_unrotated_amended (a : Auth) (now : Nat) (tat : String) (ein : Nat) :
    a.refresh now (.ok ⟨tat, none, some ein⟩) =
      ⟨((a.set_expires_at_unchecked (now + ein)).set_refresh_expires_at_unchecked
          (now + Auth.DAYS * 24 * 60 * 60)).set_access_token_unchecked tat,
        none, 1⟩ ∧
    (a.refresh now (.ok ⟨tat, none, some ein⟩)).state.refresh_token = a.refresh_token := by
  exact ⟨rfl, rfl⟩

/-- Claim C7: on every successful `refresh` and every successful
`regenerate`, the new access expiry is the clock plus the provider
reported `expires_in`, and the new refresh expiry is the clock plus
exactly 31 days = 2678400 seconds, in exact natural-number arithmetic. -/
theorem refresh_regenerate_expiry (a : Auth) (now : Nat) (tat trt : String) (ein : Nat)
    (v csrf code : String) :
    ((a.refresh now (.ok ⟨tat, some trt, some ein⟩)).result = some (.ok ()) ∧
     (a.refresh now (.ok ⟨tat, some trt, some ein⟩)).state.expires_at = now + ein ∧
     (a.refresh now (.ok ⟨tat, some trt, some ein⟩)).state.refresh_expires_at =
       now + 2678400) ∧
    ((a.regenerate now v csrf (.ok (code, csrf)) (.ok ⟨tat, some trt, some ein⟩)).result =
       some (.ok ()) ∧
     (a.regenerate now v csrf (.ok (code, csrf))
        (.ok ⟨tat, some trt, some ein⟩)).state.expires_at = now + ein ∧
     (a.regenerate now v csrf (.ok (code, csrf))
        (.ok ⟨tat, some trt, some ein⟩)).state.refresh_expires_at = now + 2678400) ∧
    Auth.DAYS * 24 * 60 * 60 = 2678400 := by
  refine ⟨⟨rfl, rfl, rfl⟩, ?_, rfl⟩
  simp [Auth.regenerate, Auth.set_expires_at_unchecked, Auth.set_refresh_expires_at_unchecked,
        Auth.set_access_token_unchecked, Auth.set_refresh_token_unchecked, Auth.DAYS]

/-- Claim C8, counterexample: the PKCE pair used by `regenerate` comes
from `new_random_plain`, so the authorization URL carries the raw
verifier itself as the challenge with method "plain", not an S256
transformation. -/
theorem pkce_plain_cex :
    ("code_challenge", "ver") ∈ (Auth.new "cid" "sec" "r").authorize_url_params "st" "ver" ∧
    ("code_challenge_method", "plain") ∈
      (Auth.new "cid" "sec" "r").authorize_url_params "st" "ver" ∧
    ("code_challenge_method", "S256") ∉
      (Auth.new "cid" "sec" "r").authorize_url_params "st" "ver" ∧
    (PkceCodeChallenge.new_random_plain "ver").1.code_challenge =
      (PkceCodeChallenge.new_random_plain "ver").2 := by
  refine ⟨?_, ?_, ?_, rfl⟩ <;> decide

/-- Claim C8, amended: for every flow started by `regenerate`, the PKCE
challenge embedded in the authorization URL is the plain-method
challenge: its value is exactly the retained raw verifier and its method
string is "plain". -/
theorem pkce_plain_amended (a : Auth) (csrf v : String) :
    PkceCodeChallenge.new_random_plain v = (⟨v, "plain"⟩, v) ∧
    ("code_challenge", v) ∈ a.authorize_url_params csrf v ∧
    ("code_challenge_method", "plain") ∈ a.authorize_url_params csrf v := by
  refine ⟨rfl, ?_, ?_⟩ <;>
    simp [Auth.authorize_url_params, PkceCodeChallenge.new_random_plain]

/-- Claim C9, counterexample: in the interleaving model of two
simultaneous `try_refresh` calls on a shared manager whose access token
is expired and whose refresh token is valid, the schedule in which both
tasks snapshot validity before either refreshes performs two
token-endpoint exchanges in total, not one, while both callers still
observe success. -/
theorem concurrent_double_exchange_cex :
    c9Final.exchanges = 2 ∧
    c9Final.t1.res = some (some (.ok ())) ∧
    c9Final.t2.res = some (some (.ok ())) := by
  exact ⟨rfl, rfl, rfl⟩

/-- Claim C9, amended: two simultaneous `try_refresh` calls with access
expired and refresh valid both observe success, but the source does not
serialize them: a schedule of the interleaving model exists under which
each call performs its own exchange, two in total. -/
theorem concurrent_double_exchange_amended :
    ∃ sched : List Bool,
      (runSched 10 (.ok c9Resp) sched c9Init).exchanges = 2 ∧
      (runSched 10 (.ok c9Resp) sched c9Init).t1.res = some (some (.ok ())) ∧
      (runSched 10 (.ok c9Resp) sched c9Init).t2.res = some (some (.ok ())) := by
  exact ⟨c9Sched, rfl, rfl, rfl⟩

/-- Claim C10: each unchecked setter modifies only its own field; every
other field of the manager state is unchanged. -/
theorem unchecked_setters_frame (a : Auth) (s : String) (n : Nat) :
    ((a.set_access_token_unchecked s).refresh_token = a.refresh_token ∧
     (a.set_access_token_unchecked s).expires_at = a.expires_at ∧
     (a.set_access_token_unchecked s).refresh_expires_at = a.refresh_expires_at ∧
     (a.set_access_token_unchecked s).client_id = a.client_id ∧
     (a.set_access_token_unchecked s).client_secret = a.client_secret ∧
     (a.set_access_token_unchecked s).redirect_url = a.redirect_url ∧
     (a.set_access_token_unchecked s).scopes = a.scopes) ∧
    ((a.set_refresh_token_unchecked s).access_token = a.access_token ∧
     (a.set_refresh_token_unchecked s).expires_at = a.expires_at ∧
     (a.set_refresh_token_unchecked s).refresh_expires_at = a.refresh_expires_at ∧
     (a.set_refresh_token_unchecked s).client_id = a.client_id ∧
     (a.set_refresh_token_unchecked s).client_secret = a.client_secret ∧
     (a.set_refresh_token_unchecked s).redirect_url = a.redirect_url ∧
     (a.set_refresh_token_unchecked s).scopes = a.scopes) ∧
    ((a.set_expires_at_unchecked n).access_token = a.access_token ∧
     (a.set_expires_at_unchecked n).refresh_token = a.refresh_token ∧
     (a.set_expires_at_unchecked n).refresh_expires_at = a.refresh_expires_at ∧
     (a.set_expires_at_unchecked n).client_id = a.client_id ∧
     (a.set_expires_at_unchecked n).client_secret = a.client_secret ∧
     (a.set_expires_at_unchecked n).redirect_url = a.redirect_url ∧
     (a.set_expires_at_unchecked n).scopes = a.scopes) ∧
    ((a.set_refresh_expires_at_unchecked n).access_token = a.access_token ∧
     (a.set_refresh_expires_at_unchecked n).refresh_token = a.refresh_token ∧
     (a.set_refresh_expires_at_unchecked n).expires_at = a.expires_at ∧
     (a.set_refresh_expires_at_unchecked n).client_id = a.client_id ∧
     (a.set_refresh_expires_at_unchecked n).client_secret = a.client_secret ∧
     (a.set_refresh_expires_at_unchecked n).redirect_url = a.redirect_url ∧
     (a.set_refresh_expires_at_unchecked n).scopes = a.scopes) := by
  exact ⟨⟨rfl, rfl, rfl, rfl, rfl, rfl, rfl⟩, ⟨rfl, rfl, rfl, rfl, rfl, rfl, rfl⟩,
    ⟨rfl, rfl, rfl, rfl, rfl, rfl, rfl⟩, ⟨rfl, rfl, rfl, rfl, rfl, rfl, rfl⟩⟩
